import Mathlib

/-!
Verification development for the WorkflowAutoS task/executor core.

The Rust sources embedded here:
  - crates/common/src/task.rs    (Task, TaskStatus, Task::new)
  - crates/common/src/error.rs   (Error taxonomy)
  - crates/executor/src/traits.rs (ExecutionResult, Executor contract)
  - crates/executor/src/file.rs  (FileExecutor: resolve_path, name, validate,
                                  execute dispatch, and the twelve operation handlers)

Modelling conventions:
  - `serde_json::Value` is embedded as the inductive `Json`; params objects are
    association lists of key/value pairs (a `Value::Object` has no duplicate keys,
    and serde struct deserialization reads each named field and, by default,
    ignores unknown fields — embedded as first-match lookup of the required keys).
  - The host filesystem (tokio::fs / std::fs, an external collaborator) is an
    explicit state `FS`: a file map, a directory list, and a log of every
    filesystem primitive invoked.  A handler that fails before touching the
    filesystem returns the state unchanged, log included.
  - `serde_json::from_str` / `serde_json::to_string_pretty` are external library
    services; they are passed in as a `JsonLib` record so every theorem holds for
    an arbitrary JSON codec.  The csv crate (default configuration: comma
    delimiter, newline terminator, minimal quoting, first record = headers,
    non-flexible record lengths) is embedded concretely, because the spec states a
    concrete CSV round-trip property.
  - The exact text of a serde deserialization error and of an OS io error is
    library-internal; it is embedded as a fixed message string.
  - `Uuid::new_v4()` and `Utc::now()` are nondeterministic external inputs; the
    embedding of `Task::new` receives the freshly generated identifier and the
    clock reading as explicit leading arguments.
-/

namespace WAS

/-- Embeds `serde_json::Value`.  Numbers are embedded as integers (no claim
involves non-integral numbers); objects are association lists. -/
inductive Json where
  | null : Json
  | bool (b : Bool) : Json
  | num (n : Int) : Json
  | str (s : String) : Json
  | arr (xs : List Json) : Json
  | obj (kvs : List (String × Json)) : Json

/-- Embeds `local_automation_common::Error` (crates/common/src/error.rs):
Io, Serialization, TaskNotFound, PermissionDenied, Timeout, InvalidConfig. -/
inductive Error where
  | ioErr (msg : String) : Error
  | serialization (msg : String) : Error
  | taskNotFound (msg : String) : Error
  | permissionDenied (msg : String) : Error
  | timeout : Error
  | invalidConfig (msg : String) : Error

/-- Embeds `TaskStatus` (crates/common/src/task.rs). -/
inductive TaskStatus where
  | pending : TaskStatus
  | running : TaskStatus
  | completed : TaskStatus
  | failed : TaskStatus
  | cancelled : TaskStatus
deriving DecidableEq

/-- Embeds `Task` (crates/common/src/task.rs).  `Uuid` is embedded as `Nat`,
`DateTime<Utc>` as an integer timestamp. -/
structure Task where
  id : Nat
  executor : String
  operation : String
  params : Json
  status : TaskStatus
  created_at : Int
  started_at : Option Int
  completed_at : Option Int

/-- Embeds `Task::new`.  `Uuid::new_v4()` and `Utc::now()` are external
nondeterministic inputs, received here as the explicit arguments `freshId`
and `now`; the remaining arguments are the constructor's own. -/
def Task.new (freshId : Nat) (now : Int)
    (executor : String) (operation : String) (params : Json) : Task :=
  { id := freshId
  , executor := executor
  , operation := operation
  , params := params
  , status := TaskStatus.pending
  , created_at := now
  , started_at := none
  , completed_at := none }

/-- Embeds `ExecutionResult` (crates/executor/src/traits.rs). -/
structure ExecutionResult where
  success : Bool
  output : Option Json
  error : Option String

/-- Fixed stand-in for a serde deserialization error message (`e.to_string()`),
whose exact text is library-internal. -/
def serdeErrMsg : String := "invalid params"

/-- Fixed stand-in for an OS io error message, whose exact text is
library-internal. -/
def ioNotFoundMsg : String := "No such file or directory"

/-- Fixed stand-in for a csv crate UnequalLengths error message. -/
def csvLenMsg : String := "CSV error: record length mismatch"

def listIsPre : List Char → List Char → Bool
  | [], _ => true
  | _ :: _, [] => false
  | a :: as, b :: bs => a == b && listIsPre as bs

/-- `str::starts_with` on strings, by character list. -/
def strStarts (pre : String) (s : String) : Bool :=
  listIsPre pre.toList s.toList

/-- `str::ends_with` on strings, by character list. -/
def strEnds (suf : String) (s : String) : Bool :=
  listIsPre suf.toList.reverse s.toList.reverse

/-- The host filesystem, an external collaborator, embedded as explicit state:
a path-to-content file map, a directory list, and a log recording every
filesystem primitive invoked (so that "fails before any filesystem call"
is expressible as: the state, log included, is returned unchanged). -/
structure FS where
  files : List (String × String)
  dirs : List String
  log : List String

def fsLog (fs : FS) (entry : String) : FS :=
  { fs with log := fs.log ++ [entry] }

/-- Embeds `tokio::fs::read_to_string`: the file content when present,
an io error otherwise. -/
def fsReadToString (fs : FS) (p : String) : Except Error String × FS :=
  ( match fs.files.lookup p with
    | some c => Except.ok c
    | none => Except.error (Error.ioErr ioNotFoundMsg)
  , fsLog fs ("read " ++ p) )

/-- Embeds `tokio::fs::write`: create or overwrite. -/
def fsWrite (fs : FS) (p : String) (c : String) : FS :=
  { fsLog fs ("write " ++ p) with
    files := (p, c) :: fs.files.filter (fun q => !(q.1 == p)) }

/-- Embeds `tokio::fs::remove_file`: io error when the file is absent. -/
def fsRemoveFile (fs : FS) (p : String) : Except Error Unit × FS :=
  let fs1 := fsLog fs ("remove " ++ p)
  match fs1.files.lookup p with
  | some _ => (Except.ok (), { fs1 with files := fs1.files.filter (fun q => !(q.1 == p)) })
  | none => (Except.error (Error.ioErr ioNotFoundMsg), fs1)

/-- Embeds `tokio::fs::copy`: read the source bytes, write them to the
destination; io error when the source is absent. -/
def fsCopy (fs : FS) (src : String) (dst : String) : Except Error Unit × FS :=
  let fs1 := fsLog fs ("copy " ++ src ++ " " ++ dst)
  match fs1.files.lookup src with
  | some c =>
    (Except.ok (), { fs1 with files := (dst, c) :: fs1.files.filter (fun q => !(q.1 == dst)) })
  | none => (Except.error (Error.ioErr ioNotFoundMsg), fs1)

/-- Embeds `tokio::fs::rename`: move the entry; io error when the source is
absent. -/
def fsRename (fs : FS) (src : String) (dst : String) : Except Error Unit × FS :=
  let fs1 := fsLog fs ("rename " ++ src ++ " " ++ dst)
  match fs1.files.lookup src with
  | some c =>
    (Except.ok (), { fs1 with
      files := (dst, c) :: (fs1.files.filter (fun q => !(q.1 == src))).filter (fun q => !(q.1 == dst)) })
  | none => (Except.error (Error.ioErr ioNotFoundMsg), fs1)

/-- The name of an entry `p` directly inside directory `dir`, when it is one. -/
def childName (dir : String) (p : String) : Option String :=
  let pre := if strEnds "/" dir then dir else dir ++ "/"
  if strStarts pre p then
    let rest := (p.toList.drop pre.toList.length).asString
    if rest.toList.isEmpty || rest.toList.contains '/' then none else some rest
  else none

/-- Embeds `tokio::fs::read_dir` plus the entry iteration: the names of the
entries directly under the directory; io error when the directory is absent. -/
def fsReadDir (fs : FS) (p : String) : Except Error (List String) × FS :=
  let fs1 := fsLog fs ("readdir " ++ p)
  if fs1.dirs.contains p then
    ( Except.ok (fs1.files.filterMap (fun q => childName p q.1)
        ++ fs1.dirs.filterMap (childName p))
    , fs1 )
  else (Except.error (Error.ioErr ioNotFoundMsg), fs1)

/-- Embeds `Path::exists`: true when a file or directory is present. -/
def fsExists (fs : FS) (p : String) : Bool × FS :=
  ((fs.files.lookup p).isSome || fs.dirs.contains p, fsLog fs ("exists " ++ p))

/-- Embeds `tokio::fs::create_dir_all`. -/
def fsCreateDirAll (fs : FS) (p : String) : FS :=
  { fsLog fs ("createdir " ++ p) with dirs := p :: fs.dirs }

/-- External JSON codec services (serde_json), consumed but not designed here:
`from_str` may fail with a serialization error message, `to_string_pretty`
never fails on a `Value`. -/
structure JsonLib where
  fromStr : String → Except String Json
  toStringPretty : Json → String

/-- First-match lookup of a key in a params object (a `Value::Object` holds
each key once; serde struct deserialization reads the named field). -/
def jlookup (key : String) : List (String × Json) → Option Json
  | [] => none
  | (k, v) :: rest => if k = key then some v else jlookup key rest

def Json.asStr : Json → Option String
  | Json.str s => some s
  | _ => none

def Json.asStrList : Json → Option (List String)
  | Json.arr xs => xs.mapM Json.asStr
  | _ => none

def Json.asStrListList : Json → Option (List (List String))
  | Json.arr xs => xs.mapM Json.asStrList
  | _ => none

/-- Embeds serde deserialization of `struct Params { path: String }`:
fails on a non-object, a missing `path`, or a non-string `path`;
unknown extra fields are ignored (serde default). -/
def decodePathParams : Json → Option String
  | Json.obj kvs => (jlookup "path" kvs).bind Json.asStr
  | _ => none

/-- Embeds serde deserialization of `struct Params { path: String, content: String }`. -/
def decodeWriteParams : Json → Option (String × String)
  | Json.obj kvs =>
    match (jlookup "path" kvs).bind Json.asStr, (jlookup "content" kvs).bind Json.asStr with
    | some p, some c => some (p, c)
    | _, _ => none
  | _ => none

/-- Embeds serde deserialization of `struct Params { from: String, to: String }`. -/
def decodeFromToParams : Json → Option (String × String)
  | Json.obj kvs =>
    match (jlookup "from" kvs).bind Json.asStr, (jlookup "to" kvs).bind Json.asStr with
    | some f, some t => some (f, t)
    | _, _ => none
  | _ => none

/-- Embeds serde deserialization of `struct Params { path: String, data: serde_json::Value }`:
`data` may be any value but must be present. -/
def decodeWriteJsonParams : Json → Option (String × Json)
  | Json.obj kvs =>
    match (jlookup "path" kvs).bind Json.asStr, jlookup "data" kvs with
    | some p, some d => some (p, d)
    | _, _ => none
  | _ => none

/-- Embeds serde deserialization of
`struct Params { path: String, headers: Vec<String>, rows: Vec<Vec<String>> }`. -/
def decodeWriteCsvParams : Json → Option (String × List String × List (List String))
  | Json.obj kvs =>
    match (jlookup "path" kvs).bind Json.asStr,
          (jlookup "headers" kvs).bind Json.asStrList,
          (jlookup "rows" kvs).bind Json.asStrListList with
    | some p, some hs, some rs => some (p, hs, rs)
    | _, _, _ => none
  | _ => none

/-- Embeds `str::contains("..")` on the path string (a valid UTF-8 string is
its own lossy rendering, and a `..` byte substring is exactly an adjacent
pair of dot characters). -/
def hasDotDot (s : String) : Bool :=
  (s.toList.zip s.toList.tail).any (fun pc => pc.1 == '.' && pc.2 == '.')

/-- Embeds `PathBuf::join` (Unix semantics): an absolute argument replaces the
base; otherwise the argument is appended, inserting a separator when the
nonempty base does not already end in one. -/
def pathJoin (base : String) (p : String) : String :=
  if strStarts "/" p then p
  else if base = "" then p
  else if strEnds "/" base then base ++ p
  else base ++ "/" ++ p

/-- csv crate, default quoting (QuoteStyle::Necessary): a field is quoted
exactly when it holds a delimiter, a quote or a record terminator. -/
def csvFieldNeedsQuotes (f : String) : Bool :=
  f.toList.any (fun c => c == ',' || c == '"' || c == '\n' || c == '\r')

def csvEscapeChar (c : Char) : String :=
  if c == '"' then "\"\"" else String.singleton c

def csvRenderField (f : String) : String :=
  if csvFieldNeedsQuotes f then
    "\"" ++ String.join (f.toList.map csvEscapeChar) ++ "\""
  else f

/-- csv crate `Writer::write_record`, default configuration: comma-joined
fields, newline terminator. -/
def csvRecordLine (fields : List String) : String :=
  String.intercalate "," (fields.map csvRenderField) ++ "\n"

inductive CsvMode where
  | normal : CsvMode
  | inQuotes : CsvMode
  | afterQuote : CsvMode

structure CsvState where
  recs : List (List String)
  fields : List String
  cur : List Char
  mode : CsvMode

def csvFinishField (st : CsvState) : CsvState :=
  { st with fields := st.cur.reverse.asString :: st.fields, cur := [] }

def csvFinishRecord (st : CsvState) : CsvState :=
  let st1 := csvFinishField st
  { st1 with recs := st1.fields.reverse :: st1.recs, fields := [] }

/-- One character of the csv crate's record reader (default configuration):
comma delimiter, newline terminator, double-quote quoting with doubled
quotes as escapes, carriage returns absorbed. -/
def csvStep (st : CsvState) (c : Char) : CsvState :=
  match st.mode with
  | CsvMode.normal =>
    if c == ',' then csvFinishField st
    else if c == '\n' then csvFinishRecord st
    else if c == '"' && st.cur.isEmpty then { st with mode := CsvMode.inQuotes }
    else if c == '\r' then st
    else { st with cur := c :: st.cur }
  | CsvMode.inQuotes =>
    if c == '"' then { st with mode := CsvMode.afterQuote }
    else { st with cur := c :: st.cur }
  | CsvMode.afterQuote =>
    if c == '"' then { st with cur := '"' :: st.cur, mode := CsvMode.inQuotes }
    else if c == ',' then csvFinishField { st with mode := CsvMode.normal }
    else if c == '\n' then csvFinishRecord { st with mode := CsvMode.normal }
    else if c == '\r' then { st with mode := CsvMode.normal }
    else { st with cur := c :: st.cur, mode := CsvMode.normal }

/-- csv crate reader on a whole document: the list of records (a trailing
terminator produces no extra empty record). -/
def csvParse (s : String) : List (List String) :=
  let st := s.toList.foldl csvStep
    { recs := [], fields := [], cur := [], mode := CsvMode.normal }
  let st1 :=
    match st.mode with
    | CsvMode.normal =>
      if st.cur.isEmpty && st.fields.isEmpty then st else csvFinishRecord st
    | _ => csvFinishRecord st
  st1.recs.reverse

/-- Embeds `FileExecutor` (crates/executor/src/file.rs): the sandbox root is
the only state. -/
structure FileExecutor where
  base_path : String

/-- Embeds `FileExecutor::resolve_path`: reject any path string containing
`..` with Permission-denied, otherwise join onto the sandbox root. -/
def FileExecutor.resolve_path (e : FileExecutor) (path : String) : Except Error String :=
  if hasDotDot path then
    Except.error (Error.permissionDenied "Path traversal not allowed")
  else
    Except.ok (pathJoin e.base_path path)

/-- Embeds `Executor::name` for `FileExecutor`: the constant `"file"`. -/
def FileExecutor.name (_e : FileExecutor) : String := "file"

/-- The message built by `FileExecutor::validate` for a wrongly addressed task. -/
def wrongExecutorMsg (ex : String) : String :=
  "Wrong executor: expected " ++ "'" ++ "file" ++ "'" ++ ", got " ++ "'" ++ ex ++ "'"

/-- Embeds `FileExecutor::validate`: Invalid-configuration whenever
`task.executor` differs from the capability name. -/
def FileExecutor.validate (e : FileExecutor) (task : Task) : Except Error Unit :=
  if task.executor ≠ e.name then
    Except.error (Error.invalidConfig (wrongExecutorMsg task.executor))
  else
    Except.ok ()

/-- Embeds `FileExecutor::read_file`. -/
def FileExecutor.read_file (e : FileExecutor) (fs : FS) (task : Task) :
    Except Error ExecutionResult × FS :=
  match decodePathParams task.params with
  | none => (Except.error (Error.invalidConfig serdeErrMsg), fs)
  | some path =>
    match e.resolve_path path with
    | Except.error err => (Except.error err, fs)
    | Except.ok full_path =>
      match fsReadToString fs full_path with
      | (Except.error err, fs1) => (Except.error err, fs1)
      | (Except.ok content, fs1) =>
        ( Except.ok
            { success := true
            , output := some (Json.obj [("content", Json.str content)])
            , error := none }
        , fs1 )

/-- Embeds `FileExecutor::read_csv`: read the file, take the first record as
headers and the rest as rows; a record whose length differs from the header
record is the reader's UnequalLengths error (default non-flexible reader),
embedded as the same InvalidData io wrapping the source applies. -/
def FileExecutor.read_csv (e : FileExecutor) (fs : FS) (task : Task) :
    Except Error ExecutionResult × FS :=
  match decodePathParams task.params with
  | none => (Except.error (Error.invalidConfig serdeErrMsg), fs)
  | some path =>
    match e.resolve_path path with
    | Except.error err => (Except.error err, fs)
    | Except.ok full_path =>
      match fsReadToString fs full_path with
      | (Except.error err, fs1) => (Except.error err, fs1)
      | (Except.ok content, fs1) =>
        if (csvParse content).tail.all
            (fun r => r.length == ((csvParse content).headD []).length) then
          ( Except.ok
              { success := true
              , output := some (Json.obj
                  [ ("headers", Json.arr (((csvParse content).headD []).map Json.str))
                  , ("rows", Json.arr ((csvParse content).tail.map
                      (fun r => Json.arr (r.map Json.str)))) ])
              , error := none }
          , fs1 )
        else (Except.error (Error.ioErr csvLenMsg), fs1)

/-- Embeds `FileExecutor::read_json`: read the file and parse it with the
external JSON codec; a parse failure is a Serialization error (the `?`
conversion from `serde_json::Error`). -/
def FileExecutor.read_json (lib : JsonLib) (e : FileExecutor) (fs : FS) (task : Task) :
    Except Error ExecutionResult × FS :=
  match decodePathParams task.params with
  | none => (Except.error (Error.invalidConfig serdeErrMsg), fs)
  | some path =>
    match e.resolve_path path with
    | Except.error err => (Except.error err, fs)
    | Except.ok full_path =>
      match fsReadToString fs full_path with
      | (Except.error err, fs1) => (Except.error err, fs1)
      | (Except.ok content, fs1) =>
        match lib.fromStr content with
        | Except.error msg => (Except.error (Error.serialization msg), fs1)
        | Except.ok json =>
          (Except.ok { success := true, output := some json, error := none }, fs1)

/-- Embeds `FileExecutor::write_file`. -/
def FileExecutor.write_file (e : FileExecutor) (fs : FS) (task : Task) :
    Except Error ExecutionResult × FS :=
  match decodeWriteParams task.params with
  | none => (Except.error (Error.invalidConfig serdeErrMsg), fs)
  | some (path, content) =>
    match e.resolve_path path with
    | Except.error err => (Except.error err, fs)
    | Except.ok full_path =>
      ( Except.ok
          { success := true
          , output := some (Json.obj [("path", Json.str full_path)])
          , error := none }
      , fsWrite fs full_path content )

/-- Embeds `FileExecutor::delete_file`. -/
def FileExecutor.delete_file (e : FileExecutor) (fs : FS) (task : Task) :
    Except Error ExecutionResult × FS :=
  match decodePathParams task.params with
  | none => (Except.error (Error.invalidConfig serdeErrMsg), fs)
  | some path =>
    match e.resolve_path path with
    | Except.error err => (Except.error err, fs)
    | Except.ok full_path =>
      match fsRemoveFile fs full_path with
      | (Except.error err, fs1) => (Except.error err, fs1)
      | (Except.ok _, fs1) =>
        (Except.ok { success := true, output := none, error := none }, fs1)

/-- Embeds `FileExecutor::copy_file`: `from` and `to` are resolved
independently, `from` first. -/
def FileExecutor.copy_file (e : FileExecutor) (fs : FS) (task : Task) :
    Except Error ExecutionResult × FS :=
  match decodeFromToParams task.params with
  | none => (Except.error (Error.invalidConfig serdeErrMsg), fs)
  | some (fromStr, toStr) =>
    match e.resolve_path fromStr with
    | Except.error err => (Except.error err, fs)
    | Except.ok from_path =>
      match e.resolve_path toStr with
      | Except.error err => (Except.error err, fs)
      | Except.ok to_path =>
        match fsCopy fs from_path to_path with
        | (Except.error err, fs1) => (Except.error err, fs1)
        | (Except.ok _, fs1) =>
          ( Except.ok
              { success := true
              , output := some (Json.obj
                  [("from", Json.str from_path), ("to", Json.str to_path)])
              , error := none }
          , fs1 )

/-- Embeds `FileExecutor::move_file`. -/
def FileExecutor.move_file (e : FileExecutor) (fs : FS) (task : Task) :
    Except Error ExecutionResult × FS :=
  match decodeFromToParams task.params with
  | none => (Except.error (Error.invalidConfig serdeErrMsg), fs)
  | some (fromStr, toStr) =>
    match e.resolve_path fromStr with
    | Except.error err => (Except.error err, fs)
    | Except.ok from_path =>
      match e.resolve_path toStr with
      | Except.error err => (Except.error err, fs)
      | Except.ok to_path =>
        match fsRename fs from_path to_path with
        | (Except.error err, fs1) => (Except.error err, fs1)
        | (Except.ok _, fs1) =>
          ( Except.ok
              { success := true
              , output := some (Json.obj
                  [("from", Json.str from_path), ("to", Json.str to_path)])
              , error := none }
          , fs1 )

/-- Embeds `FileExecutor::list_dir`. -/
def FileExecutor.list_dir (e : FileExecutor) (fs : FS) (task : Task) :
    Except Error ExecutionResult × FS :=
  match decodePathParams task.params with
  | none => (Except.error (Error.invalidConfig serdeErrMsg), fs)
  | some path =>
    match e.resolve_path path with
    | Except.error err => (Except.error err, fs)
    | Except.ok full_path =>
      match fsReadDir fs full_path with
      | (Except.error err, fs1) => (Except.error err, fs1)
      | (Except.ok files, fs1) =>
        ( Except.ok
            { success := true
            , output := some (Json.obj [("files", Json.arr (files.map Json.str))])
            , error := none }
        , fs1 )

/-- Embeds `FileExecutor::write_json`: the external codec's pretty-printer
never fails on a `Value`, so the serialization branch of the source's `?` is
vacuous here. -/
def FileExecutor.write_json (lib : JsonLib) (e : FileExecutor) (fs : FS) (task : Task) :
    Except Error ExecutionResult × FS :=
  match decodeWriteJsonParams task.params with
  | none => (Except.error (Error.invalidConfig serdeErrMsg), fs)
  | some (path, data) =>
    match e.resolve_path path with
    | Except.error err => (Except.error err, fs)
    | Except.ok full_path =>
      ( Except.ok
          { success := true
          , output := some (Json.obj [("path", Json.str full_path)])
          , error := none }
      , fsWrite fs full_path (lib.toStringPretty data) )

/-- Embeds `FileExecutor::write_csv`: the document is built in memory (header
record, then each row record) and written once; the default non-flexible
writer rejects a row whose length differs from the header record before any
bytes reach the filesystem. -/
def FileExecutor.write_csv (e : FileExecutor) (fs : FS) (task : Task) :
    Except Error ExecutionResult × FS :=
  match decodeWriteCsvParams task.params with
  | none => (Except.error (Error.invalidConfig serdeErrMsg), fs)
  | some (path, headers, rows) =>
    match e.resolve_path path with
    | Except.error err => (Except.error err, fs)
    | Except.ok full_path =>
      if rows.all (fun r => r.length == headers.length) then
        ( Except.ok
            { success := true
            , output := some (Json.obj [("path", Json.str full_path)])
            , error := none }
        , fsWrite fs full_path
            (csvRecordLine headers ++ String.join (rows.map csvRecordLine)) )
      else (Except.error (Error.ioErr csvLenMsg), fs)

/-- Embeds `FileExecutor::create_dir`. -/
def FileExecutor.create_dir (e : FileExecutor) (fs : FS) (task : Task) :
    Except Error ExecutionResult × FS :=
  match decodePathParams task.params with
  | none => (Except.error (Error.invalidConfig serdeErrMsg), fs)
  | some path =>
    match e.resolve_path path with
    | Except.error err => (Except.error err, fs)
    | Except.ok full_path =>
      ( Except.ok
          { success := true
          , output := some (Json.obj [("path", Json.str full_path)])
          , error := none }
      , fsCreateDirAll fs full_path )

/-- Embeds `FileExecutor::exists`. -/
def FileExecutor.exists (e : FileExecutor) (fs : FS) (task : Task) :
    Except Error ExecutionResult × FS :=
  match decodePathParams task.params with
  | none => (Except.error (Error.invalidConfig serdeErrMsg), fs)
  | some path =>
    match e.resolve_path path with
    | Except.error err => (Except.error err, fs)
    | Except.ok full_path =>
      match fsExists fs full_path with
      | (b, fs1) =>
        ( Except.ok
            { success := true
            , output := some (Json.obj [("exists", Json.bool b)])
            , error := none }
        , fs1 )

/-- The dispatch table of `FileExecutor::execute` as a classification of the
operation string (the same twelve literal arms, in source order). -/
inductive OpKind where
  | opRead | opReadCsv | opReadJson | opWrite | opDelete | opMove
  | opCopy | opList | opWriteJson | opWriteCsv | opCreateDir | opExists
  | opUnknown
deriving DecidableEq

def classifyOp : String → OpKind
  | "read" => OpKind.opRead
  | "read_csv" => OpKind.opReadCsv
  | "read_json" => OpKind.opReadJson
  | "write" => OpKind.opWrite
  | "delete" => OpKind.opDelete
  | "move" => OpKind.opMove
  | "copy" => OpKind.opCopy
  | "list" => OpKind.opList
  | "write_json" => OpKind.opWriteJson
  | "write_csv" => OpKind.opWriteCsv
  | "create_dir" => OpKind.opCreateDir
  | "exists" => OpKind.opExists
  | _ => OpKind.opUnknown

/-- Embeds `FileExecutor::execute`: validate first, then dispatch on the
operation name; an unmatched name is Invalid-configuration naming it. -/
def FileExecutor.execute (lib : JsonLib) (e : FileExecutor) (fs : FS) (task : Task) :
    Except Error ExecutionResult × FS :=
  match e.validate task with
  | Except.error err => (Except.error err, fs)
  | Except.ok _ =>
    match classifyOp task.operation with
    | OpKind.opRead => e.read_file fs task
    | OpKind.opReadCsv => e.read_csv fs task
    | OpKind.opReadJson => FileExecutor.read_json lib e fs task
    | OpKind.opWrite => e.write_file fs task
    | OpKind.opDelete => e.delete_file fs task
    | OpKind.opMove => e.move_file fs task
    | OpKind.opCopy => e.copy_file fs task
    | OpKind.opList => e.list_dir fs task
    | OpKind.opWriteJson => FileExecutor.write_json lib e fs task
    | OpKind.opWriteCsv => e.write_csv fs task
    | OpKind.opCreateDir => e.create_dir fs task
    | OpKind.opExists => e.exists fs task
    | OpKind.opUnknown =>
      (Except.error (Error.invalidConfig ("Unknown operation: " ++ task.operation)), fs)

/-- The twelve operation names of the dispatch table, in source order. -/
def supportedOps : List String :=
  ["read", "read_csv", "read_json", "write", "delete", "move", "copy", "list",
   "write_json", "write_csv", "create_dir", "exists"]

theorem classifyOp_unknown {op : String} (h : op ∉ supportedOps) :
    classifyOp op = OpKind.opUnknown := by
  unfold classifyOp
  split
  all_goals first
    | rfl
    | exact absurd (by decide) h

/-- The path strings referenced by a task's successfully decoded params
(`from` before `to` for the two-path operations, matching resolution order). -/
def Task.decodedPaths (task : Task) : List String :=
  match classifyOp task.operation with
  | OpKind.opRead | OpKind.opReadCsv | OpKind.opReadJson | OpKind.opDelete
  | OpKind.opList | OpKind.opCreateDir | OpKind.opExists =>
    match decodePathParams task.params with
    | some p => [p]
    | none => []
  | OpKind.opWrite =>
    match decodeWriteParams task.params with
    | some pc => [pc.1]
    | none => []
  | OpKind.opWriteJson =>
    match decodeWriteJsonParams task.params with
    | some pd => [pd.1]
    | none => []
  | OpKind.opWriteCsv =>
    match decodeWriteCsvParams task.params with
    | some x => [x.1]
    | none => []
  | OpKind.opCopy | OpKind.opMove =>
    match decodeFromToParams task.params with
    | some ft => [ft.1, ft.2]
    | none => []
  | OpKind.opUnknown => []

/-- The params fields an operation's serde shape requires. -/
def opRequiredKeys (op : String) : List String :=
  match classifyOp op with
  | OpKind.opRead | OpKind.opReadCsv | OpKind.opReadJson | OpKind.opDelete
  | OpKind.opList | OpKind.opCreateDir | OpKind.opExists => ["path"]
  | OpKind.opWrite => ["path", "content"]
  | OpKind.opWriteJson => ["path", "data"]
  | OpKind.opWriteCsv => ["path", "headers", "rows"]
  | OpKind.opCopy | OpKind.opMove => ["from", "to"]
  | OpKind.opUnknown => []

/-- Concrete instances used by the witnesses. -/
def fe0 : FileExecutor := { base_path := "/sandbox" }

def fs0 : FS := { files := [], dirs := [], log := [] }

def dummyLib : JsonLib :=
  { fromStr := fun _ => Except.error "parse error", toStringPretty := fun _ => "" }

def mkTask (op : String) (params : Json) : Task := Task.new 0 0 "file" op params

/-- C8: `Task::new` fixes every derived field: the freshly generated
identifier and the clock reading become `id` and `created_at`, the status is
Pending, and the two optional timestamps are absent; the three caller
arguments are stored unchanged. -/
theorem task_new_spec (freshId : Nat) (now : Int) (ex op : String) (p : Json) :
    Task.new freshId now ex op p =
      { id := freshId
      , executor := ex
      , operation := op
      , params := p
      , status := TaskStatus.pending
      , created_at := now
      , started_at := none
      , completed_at := none } := rfl

/-- C5: on a path free of `..`, `resolve_path` succeeds with exactly the join
of the sandbox root and the input, and that join lets an absolute input
replace the root (no canonicalization). -/
theorem resolve_path_no_dotdot (e : FileExecutor) (p : String)
    (h : hasDotDot p = false) :
    e.resolve_path p = Except.ok (pathJoin e.base_path p)
    ∧ (strStarts "/" p = true → pathJoin e.base_path p = p) := by
  constructor
  · simp [FileExecutor.resolve_path, h]
  · intro hs
    simp [pathJoin, hs]

theorem resolve_path_no_dotdot_witness :
    hasDotDot "/etc/hosts" = false
    ∧ (FileExecutor.resolve_path fe0 "/etc/hosts"
          = Except.ok (pathJoin fe0.base_path "/etc/hosts")
       ∧ (strStarts "/" "/etc/hosts" = true
           → pathJoin fe0.base_path "/etc/hosts" = "/etc/hosts")) :=
  ⟨by decide, resolve_path_no_dotdot fe0 "/etc/hosts" (by decide)⟩

/-- C9: the capability name is the constant `"file"` for every instance, and
`validate` (hence `execute`) accepts a task exactly when `task.executor` is
the string `"file"`. -/
theorem name_is_file (e : FileExecutor) (task : Task) :
    e.name = "file"
    ∧ (e.validate task = Except.ok () ↔ task.executor = "file")
    ∧ (∀ lib fs, task.executor ≠ "file" →
         (FileExecutor.execute lib e fs task).1
           = Except.error (Error.invalidConfig (wrongExecutorMsg task.executor))) := by
  refine ⟨rfl, ?_, ?_⟩
  · unfold FileExecutor.validate FileExecutor.name
    split
    · simp_all
    · simp_all
  · intro lib fs hne
    have hv : e.validate task
        = Except.error (Error.invalidConfig (wrongExecutorMsg task.executor)) := by
      unfold FileExecutor.validate FileExecutor.name
      simp [hne]
    unfold FileExecutor.execute
    rw [hv]

def tBad : Task := Task.new 0 0 "shell" "read" Json.null

theorem name_is_file_witness :
    tBad.executor ≠ "file"
    ∧ (FileExecutor.name fe0 = "file"
       ∧ (FileExecutor.validate fe0 tBad = Except.ok () ↔ tBad.executor = "file")
       ∧ (∀ lib fs, tBad.executor ≠ "file" →
            (FileExecutor.execute lib fe0 fs tBad).1
              = Except.error (Error.invalidConfig (wrongExecutorMsg tBad.executor)))) :=
  ⟨by decide, name_is_file fe0 tBad⟩

/-- C3: `validate` fails with Invalid-configuration exactly when the task is
addressed to a different executor, and `execute` runs that check first: a
wrongly addressed task fails before dispatch, with the filesystem untouched. -/
theorem validate_wrong_executor (e : FileExecutor) (task : Task) :
    ((∃ msg, e.validate task = Except.error (Error.invalidConfig msg))
       ↔ task.executor ≠ "file")
    ∧ (∀ lib fs, task.executor ≠ "file" →
         FileExecutor.execute lib e fs task
           = (Except.error (Error.invalidConfig (wrongExecutorMsg task.executor)), fs)) := by
  constructor
  · constructor
    · rintro ⟨msg, hmsg⟩
      intro hex
      unfold FileExecutor.validate FileExecutor.name at hmsg
      rw [if_neg (by simp [hex])] at hmsg
      cases hmsg
    · intro hne
      refine ⟨wrongExecutorMsg task.executor, ?_⟩
      unfold FileExecutor.validate FileExecutor.name
      simp [hne]
  · intro lib fs hne
    have hv : e.validate task
        = Except.error (Error.invalidConfig (wrongExecutorMsg task.executor)) := by
      unfold FileExecutor.validate FileExecutor.name
      simp [hne]
    unfold FileExecutor.execute
    rw [hv]

theorem validate_wrong_executor_witness :
    tBad.executor ≠ "file"
    ∧ ((∃ msg, FileExecutor.validate fe0 tBad = Except.error (Error.invalidConfig msg))
         ↔ tBad.executor ≠ "file")
    ∧ FileExecutor.execute dummyLib fe0 fs0 tBad
        = (Except.error (Error.invalidConfig (wrongExecutorMsg tBad.executor)), fs0) :=
  ⟨by decide, (validate_wrong_executor fe0 tBad).1,
   (validate_wrong_executor fe0 tBad).2 dummyLib fs0 (by decide)⟩

/-- C4: a correctly addressed task whose operation is none of the twelve
supported names fails with Invalid-configuration naming that operation,
whatever the params, with the filesystem untouched. -/
theorem execute_unknown_op (lib : JsonLib) (e : FileExecutor) (fs : FS) (task : Task)
    (hex : task.executor = "file") (hop : task.operation ∉ supportedOps) :
    FileExecutor.execute lib e fs task
      = (Except.error (Error.invalidConfig ("Unknown operation: " ++ task.operation)), fs) := by
  have hv : e.validate task = Except.ok () := by
    unfold FileExecutor.validate FileExecutor.name
    simp [hex]
  unfold FileExecutor.execute
  rw [hv, classifyOp_unknown hop]

theorem execute_unknown_op_witness :
    (mkTask "frobnicate" Json.null).executor = "file"
    ∧ (mkTask "frobnicate" Json.null).operation ∉ supportedOps
    ∧ FileExecutor.execute dummyLib fe0 fs0 (mkTask "frobnicate" Json.null)
        = (Except.error (Error.invalidConfig
            ("Unknown operation: " ++ (mkTask "frobnicate" Json.null).operation)), fs0) :=
  ⟨by decide, by decide,
   execute_unknown_op dummyLib fe0 fs0 (mkTask "frobnicate" Json.null) (by decide) (by decide)⟩

theorem read_file_ok {e : FileExecutor} {fs : FS} {task : Task} {r : ExecutionResult} {fs1 : FS}
    (h : FileExecutor.read_file e fs task = (Except.ok r, fs1)) :
    r.success = true ∧ r.error = none := by
  unfold FileExecutor.read_file at h
  repeat' split at h
  all_goals injection h with h1 h2
  all_goals first
    | exact Except.noConfusion h1
    | (injection h1 with h3; subst h3; exact ⟨rfl, rfl⟩)

theorem read_csv_ok {e : FileExecutor} {fs : FS} {task : Task} {r : ExecutionResult} {fs1 : FS}
    (h : FileExecutor.read_csv e fs task = (Except.ok r, fs1)) :
    r.success = true ∧ r.error = none := by
  unfold FileExecutor.read_csv at h
  repeat' split at h
  all_goals injection h with h1 h2
  all_goals first
    | exact Except.noConfusion h1
    | (injection h1 with h3; subst h3; exact ⟨rfl, rfl⟩)

theorem read_json_ok {lib : JsonLib} {e : FileExecutor} {fs : FS} {task : Task}
    {r : ExecutionResult} {fs1 : FS}
    (h : FileExecutor.read_json lib e fs task = (Except.ok r, fs1)) :
    r.success = true ∧ r.error = none := by
  unfold FileExecutor.read_json at h
  repeat' split at h
  all_goals injection h with h1 h2
  all_goals first
    | exact Except.noConfusion h1
    | (injection h1 with h3; subst h3; exact ⟨rfl, rfl⟩)

theorem write_file_ok {e : FileExecutor} {fs : FS} {task : Task} {r : ExecutionResult} {fs1 : FS}
    (h : FileExecutor.write_file e fs task = (Except.ok r, fs1)) :
    r.success = true ∧ r.error = none := by
  unfold FileExecutor.write_file at h
  repeat' split at h
  all_goals injection h with h1 h2
  all_goals first
    | exact Except.noConfusion h1
    | (injection h1 with h3; subst h3; exact ⟨rfl, rfl⟩)

theorem delete_file_ok {e : FileExecutor} {fs : FS} {task : Task} {r : ExecutionResult} {fs1 : FS}
    (h : FileExecutor.delete_file e fs task = (Except.ok r, fs1)) :
    r.success = true ∧ r.error = none := by
  unfold FileExecutor.delete_file at h
  repeat' split at h
  all_goals injection h with h1 h2
  all_goals first
    | exact Except.noConfusion h1
    | (injection h1 with h3; subst h3; exact ⟨rfl, rfl⟩)

theorem copy_file_ok {e : FileExecutor} {fs : FS} {task : Task} {r : ExecutionResult} {fs1 : FS}
    (h : FileExecutor.copy_file e fs task = (Except.ok r, fs1)) :
    r.success = true ∧ r.error = none := by
  unfold FileExecutor.copy_file at h
  repeat' split at h
  all_goals injection h with h1 h2
  all_goals first
    | exact Except.noConfusion h1
    | (injection h1 with h3; subst h3; exact ⟨rfl, rfl⟩)

theorem move_file_ok {e : FileExecutor} {fs : FS} {task : Task} {r : ExecutionResult} {fs1 : FS}
    (h : FileExecutor.move_file e fs task = (Except.ok r, fs1)) :
    r.success = true ∧ r.error = none := by
  unfold FileExecutor.move_file at h
  repeat' split at h
  all_goals injection h with h1 h2
  all_goals first
    | exact Except.noConfusion h1
    | (injection h1 with h3; subst h3; exact ⟨rfl, rfl⟩)

theorem list_dir_ok {e : FileExecutor} {fs : FS} {task : Task} {r : ExecutionResult} {fs1 : FS}
    (h : FileExecutor.list_dir e fs task = (Except.ok r, fs1)) :
    r.success = true ∧ r.error = none := by
  unfold FileExecutor.list_dir at h
  repeat' split at h
  all_goals injection h with h1 h2
  all_goals first
    | exact Except.noConfusion h1
    | (injection h1 with h3; subst h3; exact ⟨rfl, rfl⟩)

theorem write_json_ok {lib : JsonLib} {e : FileExecutor} {fs : FS} {task : Task}
    {r : ExecutionResult} {fs1 : FS}
    (h : FileExecutor.write_json lib e fs task = (Except.ok r, fs1)) :
    r.success = true ∧ r.error = none := by
  unfold FileExecutor.write_json at h
  repeat' split at h
  all_goals injection h with h1 h2
  all_goals first
    | exact Except.noConfusion h1
    | (injection h1 with h3; subst h3; exact ⟨rfl, rfl⟩)

theorem write_csv_ok {e : FileExecutor} {fs : FS} {task : Task} {r : ExecutionResult} {fs1 : FS}
    (h : FileExecutor.write_csv e fs task = (Except.ok r, fs1)) :
    r.success = true ∧ r.error = none := by
  unfold FileExecutor.write_csv at h
  repeat' split at h
  all_goals injection h with h1 h2
  all_goals first
    | exact Except.noConfusion h1
    | (injection h1 with h3; subst h3; exact ⟨rfl, rfl⟩)

theorem create_dir_ok {e : FileExecutor} {fs : FS} {task : Task} {r : ExecutionResult} {fs1 : FS}
    (h : FileExecutor.create_dir e fs task = (Except.ok r, fs1)) :
    r.success = true ∧ r.error = none := by
  unfold FileExecutor.create_dir at h
  repeat' split at h
  all_goals injection h with h1 h2
  all_goals first
    | exact Except.noConfusion h1
    | (injection h1 with h3; subst h3; exact ⟨rfl, rfl⟩)

theorem exists_ok {e : FileExecutor} {fs : FS} {task : Task} {r : ExecutionResult} {fs1 : FS}
    (h : FileExecutor.exists e fs task = (Except.ok r, fs1)) :
    r.success = true ∧ r.error = none := by
  unfold FileExecutor.exists at h
  repeat' split at h
  all_goals injection h with h1 h2
  all_goals first
    | exact Except.noConfusion h1
    | (injection h1 with h3; subst h3; exact ⟨rfl, rfl⟩)

/-- C2: whenever `execute` returns Ok, the result has `success = true` and
`error = None`; no operation ever returns Ok of a soft failure — failures
leave through the typed Error channel only. -/
theorem execute_ok_success (lib : JsonLib) (e : FileExecutor) (fs : FS) (task : Task)
    {r : ExecutionResult} {fs1 : FS}
    (h : FileExecutor.execute lib e fs task = (Except.ok r, fs1)) :
    r.success = true ∧ r.error = none := by
  unfold FileExecutor.execute at h
  repeat' split at h
  all_goals first
    | exact read_file_ok h
    | exact read_csv_ok h
    | exact read_json_ok h
    | exact write_file_ok h
    | exact delete_file_ok h
    | exact copy_file_ok h
    | exact move_file_ok h
    | exact list_dir_ok h
    | exact write_json_ok h
    | exact write_csv_ok h
    | exact create_dir_ok h
    | exact exists_ok h
    | (injection h with h1 h2; injection h1)

def existsTask : Task := mkTask "exists" (Json.obj [("path", Json.str "a.txt")])

def r0c : ExecutionResult :=
  { success := true, output := some (Json.obj [("exists", Json.bool false)]), error := none }

def fs1c : FS := { files := [], dirs := [], log := ["exists /sandbox/a.txt"] }

theorem execute_ok_success_witness :
    FileExecutor.execute dummyLib fe0 fs0 existsTask = (Except.ok r0c, fs1c)
    ∧ (r0c.success = true ∧ r0c.error = none) :=
  ⟨rfl, execute_ok_success dummyLib fe0 fs0 existsTask rfl⟩

theorem read_file_dotdot {e : FileExecutor} {fs : FS} {task : Task} {p : String}
    (hd : decodePathParams task.params = some p) (hdd : hasDotDot p = true) :
    FileExecutor.read_file e fs task
      = (Except.error (Error.permissionDenied "Path traversal not allowed"), fs) := by
  unfold FileExecutor.read_file
  simp [hd, FileExecutor.resolve_path, hdd]

theorem read_csv_dotdot {e : FileExecutor} {fs : FS} {task : Task} {p : String}
    (hd : decodePathParams task.params = some p) (hdd : hasDotDot p = true) :
    FileExecutor.read_csv e fs task
      = (Except.error (Error.permissionDenied "Path traversal not allowed"), fs) := by
  unfold FileExecutor.read_csv
  simp [hd, FileExecutor.resolve_path, hdd]

theorem read_json_dotdot {lib : JsonLib} {e : FileExecutor} {fs : FS} {task : Task} {p : String}
    (hd : decodePathParams task.params = some p) (hdd : hasDotDot p = true) :
    FileExecutor.read_json lib e fs task
      = (Except.error (Error.permissionDenied "Path traversal not allowed"), fs) := by
  unfold FileExecutor.read_json
  simp [hd, FileExecutor.resolve_path, hdd]

theorem write_file_dotdot {e : FileExecutor} {fs : FS} {task : Task} {pc : String × String}
    (hd : decodeWriteParams task.params = some pc) (hdd : hasDotDot pc.1 = true) :
    FileExecutor.write_file e fs task
      = (Except.error (Error.permissionDenied "Path traversal not allowed"), fs) := by
  unfold FileExecutor.write_file
  simp [hd, FileExecutor.resolve_path, hdd]

theorem delete_file_dotdot {e : FileExecutor} {fs : FS} {task : Task} {p : String}
    (hd : decodePathParams task.params = some p) (hdd : hasDotDot p = true) :
    FileExecutor.delete_file e fs task
      = (Except.error (Error.permissionDenied "Path traversal not allowed"), fs) := by
  unfold FileExecutor.delete_file
  simp [hd, FileExecutor.resolve_path, hdd]

theorem copy_file_dotdot {e : FileExecutor} {fs : FS} {task : Task} {ft : String × String}
    (hd : decodeFromToParams task.params = some ft)
    (hdd : hasDotDot ft.1 = true ∨ hasDotDot ft.2 = true) :
    FileExecutor.copy_file e fs task
      = (Except.error (Error.permissionDenied "Path traversal not allowed"), fs) := by
  unfold FileExecutor.copy_file
  rcases hdd with hf | ht
  · simp [hd, FileExecutor.resolve_path, hf]
  · by_cases hf : hasDotDot ft.1 = true
    · simp [hd, FileExecutor.resolve_path, hf]
    · simp [hd, FileExecutor.resolve_path, hf, ht]

theorem move_file_dotdot {e : FileExecutor} {fs : FS} {task : Task} {ft : String × String}
    (hd : decodeFromToParams task.params = some ft)
    (hdd : hasDotDot ft.1 = true ∨ hasDotDot ft.2 = true) :
    FileExecutor.move_file e fs task
      = (Except.error (Error.permissionDenied "Path traversal not allowed"), fs) := by
  unfold FileExecutor.move_file
  rcases hdd with hf | ht
  · simp [hd, FileExecutor.resolve_path, hf]
  · by_cases hf : hasDotDot ft.1 = true
    · simp [hd, FileExecutor.resolve_path, hf]
    · simp [hd, FileExecutor.resolve_path, hf, ht]

theorem list_dir_dotdot {e : FileExecutor} {fs : FS} {task : Task} {p : String}
    (hd : decodePathParams task.params = some p) (hdd : hasDotDot p = true) :
    FileExecutor.list_dir e fs task
      = (Except.error (Error.permissionDenied "Path traversal not allowed"), fs) := by
  unfold FileExecutor.list_dir
  simp [hd, FileExecutor.resolve_path, hdd]

theorem write_json_dotdot {lib : JsonLib} {e : FileExecutor} {fs : FS} {task : Task}
    {pd : String × Json}
    (hd : decodeWriteJsonParams task.params = some pd) (hdd : hasDotDot pd.1 = true) :
    FileExecutor.write_json lib e fs task
      = (Except.error (Error.permissionDenied "Path traversal not allowed"), fs) := by
  unfold FileExecutor.write_json
  simp [hd, FileExecutor.resolve_path, hdd]

theorem write_csv_dotdot {e : FileExecutor} {fs : FS} {task : Task}
    {x : String × List String × List (List String)}
    (hd : decodeWriteCsvParams task.params = some x) (hdd : hasDotDot x.1 = true) :
    FileExecutor.write_csv e fs task
      = (Except.error (Error.permissionDenied "Path traversal not allowed"), fs) := by
  unfold FileExecutor.write_csv
  simp [hd, FileExecutor.resolve_path, hdd]

theorem create_dir_dotdot {e : FileExecutor} {fs : FS} {task : Task} {p : String}
    (hd : decodePathParams task.params = some p) (hdd : hasDotDot p = true) :
    FileExecutor.create_dir e fs task
      = (Except.error (Error.permissionDenied "Path traversal not allowed"), fs) := by
  unfold FileExecutor.create_dir
  simp [hd, FileExecutor.resolve_path, hdd]

theorem exists_dotdot {e : FileExecutor} {fs : FS} {task : Task} {p : String}
    (hd : decodePathParams task.params = some p) (hdd : hasDotDot p = true) :
    FileExecutor.exists e fs task
      = (Except.error (Error.permissionDenied "Path traversal not allowed"), fs) := by
  unfold FileExecutor.exists
  simp [hd, FileExecutor.resolve_path, hdd]

/-- C1: a correctly addressed task whose decoded params reference a path
containing `..` (for from/to pairs: either of the two, each checked
independently) fails with the Permission-denied traversal error, and the
filesystem state — its call log included — is returned unchanged: the
failure happens before any filesystem call. -/
theorem execute_dotdot_denied (lib : JsonLib) (e : FileExecutor) (fs : FS) (task : Task)
    (hex : task.executor = "file")
    (hp : ∃ p, p ∈ Task.decodedPaths task ∧ hasDotDot p = true) :
    FileExecutor.execute lib e fs task
      = (Except.error (Error.permissionDenied "Path traversal not allowed"), fs) := by
  obtain ⟨p, hmem, hdd⟩ := hp
  have hv : e.validate task = Except.ok () := by
    unfold FileExecutor.validate FileExecutor.name
    simp [hex]
  unfold FileExecutor.execute
  rw [hv]
  unfold Task.decodedPaths at hmem
  cases hk : classifyOp task.operation
  all_goals rw [hk] at hmem
  all_goals simp only [hk]
  case opRead =>
    cases hdp : decodePathParams task.params
    all_goals rw [hdp] at hmem
    · exact absurd hmem (List.not_mem_nil p)
    · rename_i q
      have hpq : p = q := by simpa using hmem
      subst hpq
      exact read_file_dotdot hdp hdd
  case opReadCsv =>
    cases hdp : decodePathParams task.params
    all_goals rw [hdp] at hmem
    · exact absurd hmem (List.not_mem_nil p)
    · rename_i q
      have hpq : p = q := by simpa using hmem
      subst hpq
      exact read_csv_dotdot hdp hdd
  case opReadJson =>
    cases hdp : decodePathParams task.params
    all_goals rw [hdp] at hmem
    · exact absurd hmem (List.not_mem_nil p)
    · rename_i q
      have hpq : p = q := by simpa using hmem
      subst hpq
      exact read_json_dotdot hdp hdd
  case opWrite =>
    cases hdp : decodeWriteParams task.params
    all_goals rw [hdp] at hmem
    · exact absurd hmem (List.not_mem_nil p)
    · rename_i q
      have hpq : p = q.1 := by simpa using hmem
      subst hpq
      exact write_file_dotdot hdp hdd
  case opDelete =>
    cases hdp : decodePathParams task.params
    all_goals rw [hdp] at hmem
    · exact absurd hmem (List.not_mem_nil p)
    · rename_i q
      have hpq : p = q := by simpa using hmem
      subst hpq
      exact delete_file_dotdot hdp hdd
  case opMove =>
    cases hdp : decodeFromToParams task.params
    all_goals rw [hdp] at hmem
    · exact absurd hmem (List.not_mem_nil p)
    · rename_i q
      have hpq : p = q.1 ∨ p = q.2 := by simpa using hmem
      refine move_file_dotdot hdp ?_
      rcases hpq with h1 | h1
      · exact Or.inl (h1 ▸ hdd)
      · exact Or.inr (h1 ▸ hdd)
  case opCopy =>
    cases hdp : decodeFromToParams task.params
    all_goals rw [hdp] at hmem
    · exact absurd hmem (List.not_mem_nil p)
    · rename_i q
      have hpq : p = q.1 ∨ p = q.2 := by simpa using hmem
      refine copy_file_dotdot hdp ?_
      rcases hpq with h1 | h1
      · exact Or.inl (h1 ▸ hdd)
      · exact Or.inr (h1 ▸ hdd)
  case opList =>
    cases hdp : decodePathParams task.params
    all_goals rw [hdp] at hmem
    · exact absurd hmem (List.not_mem_nil p)
    · rename_i q
      have hpq : p = q := by simpa using hmem
      subst hpq
      exact list_dir_dotdot hdp hdd
  case opWriteJson =>
    cases hdp : decodeWriteJsonParams task.params
    all_goals rw [hdp] at hmem
    · exact absurd hmem (List.not_mem_nil p)
    · rename_i q
      have hpq : p = q.1 := by simpa using hmem
      subst hpq
      exact write_json_dotdot hdp hdd
  case opWriteCsv =>
    cases hdp : decodeWriteCsvParams task.params
    all_goals rw [hdp] at hmem
    · exact absurd hmem (List.not_mem_nil p)
    · rename_i q
      have hpq : p = q.1 := by simpa using hmem
      subst hpq
      exact write_csv_dotdot hdp hdd
  case opCreateDir =>
    cases hdp : decodePathParams task.params
    all_goals rw [hdp] at hmem
    · exact absurd hmem (List.not_mem_nil p)
    · rename_i q
      have hpq : p = q := by simpa using hmem
      subst hpq
      exact create_dir_dotdot hdp hdd
  case opExists =>
    cases hdp : decodePathParams task.params
    all_goals rw [hdp] at hmem
    · exact absurd hmem (List.not_mem_nil p)
    · rename_i q
      have hpq : p = q := by simpa using hmem
      subst hpq
      exact exists_dotdot hdp hdd
  case opUnknown =>
    exact absurd hmem (List.not_mem_nil p)

def dotdotTask : Task := mkTask "read" (Json.obj [("path", Json.str "../secret")])

theorem execute_dotdot_denied_witness :
    dotdotTask.executor = "file"
    ∧ (∃ p, p ∈ Task.decodedPaths dotdotTask ∧ hasDotDot p = true)
    ∧ FileExecutor.execute dummyLib fe0 fs0 dotdotTask
        = (Except.error (Error.permissionDenied "Path traversal not allowed"), fs0) :=
  ⟨rfl, ⟨"../secret", List.Mem.head _, rfl⟩,
   execute_dotdot_denied dummyLib fe0 fs0 dotdotTask rfl
     ⟨"../secret", List.Mem.head _, rfl⟩⟩

theorem lookup_fsWrite (fs : FS) (p : String) (c : String) :
    (fsWrite fs p c).files.lookup p = some c := by
  simp [fsWrite, List.lookup]

def writeTask (P : String) (C : String) : Task :=
  mkTask "write" (Json.obj [("path", Json.str P), ("content", Json.str C)])

def readTask (P : String) : Task :=
  mkTask "read" (Json.obj [("path", Json.str P)])

/-- C6: writing content `C` at path `P` and then reading `P` back on the same
executor yields exactly `{content: C}` (for any path free of `..`, on which
both operations succeed). -/
theorem write_read_roundtrip (lib : JsonLib) (e : FileExecutor) (fs : FS) (P C : String)
    (h : hasDotDot P = false) :
    (FileExecutor.execute lib e
        (FileExecutor.execute lib e fs (writeTask P C)).2 (readTask P)).1
      = Except.ok
          { success := true
          , output := some (Json.obj [("content", Json.str C)])
          , error := none } := by
  have hw : FileExecutor.execute lib e fs (writeTask P C)
      = ( Except.ok
            { success := true
            , output := some (Json.obj [("path", Json.str (pathJoin e.base_path P))])
            , error := none }
        , fsWrite fs (pathJoin e.base_path P) C ) := by
    have h0 : FileExecutor.execute lib e fs (writeTask P C)
        = FileExecutor.write_file e fs (writeTask P C) := rfl
    rw [h0]
    unfold FileExecutor.write_file
    have hd : decodeWriteParams (writeTask P C).params = some (P, C) := rfl
    rw [hd]
    unfold FileExecutor.resolve_path
    simp [h]
  have hr : FileExecutor.execute lib e (fsWrite fs (pathJoin e.base_path P) C) (readTask P)
      = ( Except.ok
            { success := true
            , output := some (Json.obj [("content", Json.str C)])
            , error := none }
        , fsLog (fsWrite fs (pathJoin e.base_path P) C)
            ("read " ++ pathJoin e.base_path P) ) := by
    have h0 : FileExecutor.execute lib e (fsWrite fs (pathJoin e.base_path P) C) (readTask P)
        = FileExecutor.read_file e (fsWrite fs (pathJoin e.base_path P) C) (readTask P) := rfl
    rw [h0]
    unfold FileExecutor.read_file
    have hd : decodePathParams (readTask P).params = some P := rfl
    rw [hd]
    unfold FileExecutor.resolve_path
    simp [h, fsReadToString, lookup_fsWrite]
  rw [hw, hr]

theorem write_read_roundtrip_witness :
    hasDotDot "notes.txt" = false
    ∧ (FileExecutor.execute dummyLib fe0
          (FileExecutor.execute dummyLib fe0 fs0 (writeTask "notes.txt" "hello")).2
          (readTask "notes.txt")).1
        = Except.ok
            { success := true
            , output := some (Json.obj [("content", Json.str "hello")])
            , error := none } :=
  ⟨rfl, write_read_roundtrip dummyLib fe0 fs0 "notes.txt" "hello" rfl⟩

theorem decodePathParams_congr {kvs1 kvs2 : List (String × Json)}
    (h : jlookup "path" kvs1 = jlookup "path" kvs2) :
    decodePathParams (Json.obj kvs1) = decodePathParams (Json.obj kvs2) := by
  simp [decodePathParams, h]

theorem decodeWriteParams_congr {kvs1 kvs2 : List (String × Json)}
    (hp : jlookup "path" kvs1 = jlookup "path" kvs2)
    (hc : jlookup "content" kvs1 = jlookup "content" kvs2) :
    decodeWriteParams (Json.obj kvs1) = decodeWriteParams (Json.obj kvs2) := by
  simp [decodeWriteParams, hp, hc]

theorem decodeFromToParams_congr {kvs1 kvs2 : List (String × Json)}
    (hf : jlookup "from" kvs1 = jlookup "from" kvs2)
    (ht : jlookup "to" kvs1 = jlookup "to" kvs2) :
    decodeFromToParams (Json.obj kvs1) = decodeFromToParams (Json.obj kvs2) := by
  simp [decodeFromToParams, hf, ht]

theorem decodeWriteJsonParams_congr {kvs1 kvs2 : List (String × Json)}
    (hp : jlookup "path" kvs1 = jlookup "path" kvs2)
    (hd : jlookup "data" kvs1 = jlookup "data" kvs2) :
    decodeWriteJsonParams (Json.obj kvs1) = decodeWriteJsonParams (Json.obj kvs2) := by
  simp [decodeWriteJsonParams, hp, hd]

theorem decodeWriteCsvParams_congr {kvs1 kvs2 : List (String × Json)}
    (hp : jlookup "path" kvs1 = jlookup "path" kvs2)
    (hh : jlookup "headers" kvs1 = jlookup "headers" kvs2)
    (hr : jlookup "rows" kvs1 = jlookup "rows" kvs2) :
    decodeWriteCsvParams (Json.obj kvs1) = decodeWriteCsvParams (Json.obj kvs2) := by
  simp [decodeWriteCsvParams, hp, hh, hr]

theorem read_file_params_congr {e : FileExecutor} {fs : FS} {t1 t2 : Task}
    (h : decodePathParams t1.params = decodePathParams t2.params) :
    FileExecutor.read_file e fs t1 = FileExecutor.read_file e fs t2 := by
  unfold FileExecutor.read_file
  rw [h]

theorem read_csv_params_congr {e : FileExecutor} {fs : FS} {t1 t2 : Task}
    (h : decodePathParams t1.params = decodePathParams t2.params) :
    FileExecutor.read_csv e fs t1 = FileExecutor.read_csv e fs t2 := by
  unfold FileExecutor.read_csv
  rw [h]

theorem read_json_params_congr {lib : JsonLib} {e : FileExecutor} {fs : FS} {t1 t2 : Task}
    (h : decodePathParams t1.params = decodePathParams t2.params) :
    FileExecutor.read_json lib e fs t1 = FileExecutor.read_json lib e fs t2 := by
  unfold FileExecutor.read_json
  rw [h]

theorem write_file_params_congr {e : FileExecutor} {fs : FS} {t1 t2 : Task}
    (h : decodeWriteParams t1.params = decodeWriteParams t2.params) :
    FileExecutor.write_file e fs t1 = FileExecutor.write_file e fs t2 := by
  unfold FileExecutor.write_file
  rw [h]

theorem delete_file_params_congr {e : FileExecutor} {fs : FS} {t1 t2 : Task}
    (h : decodePathParams t1.params = decodePathParams t2.params) :
    FileExecutor.delete_file e fs t1 = FileExecutor.delete_file e fs t2 := by
  unfold FileExecutor.delete_file
  rw [h]

theorem copy_file_params_congr {e : FileExecutor} {fs : FS} {t1 t2 : Task}
    (h : decodeFromToParams t1.params = decodeFromToParams t2.params) :
    FileExecutor.copy_file e fs t1 = FileExecutor.copy_file e fs t2 := by
  unfold FileExecutor.copy_file
  rw [h]

theorem move_file_params_congr {e : FileExecutor} {fs : FS} {t1 t2 : Task}
    (h : decodeFromToParams t1.params = decodeFromToParams t2.params) :
    FileExecutor.move_file e fs t1 = FileExecutor.move_file e fs t2 := by
  unfold FileExecutor.move_file
  rw [h]

theorem list_dir_params_congr {e : FileExecutor} {fs : FS} {t1 t2 : Task}
    (h : decodePathParams t1.params = decodePathParams t2.params) :
    FileExecutor.list_dir e fs t1 = FileExecutor.list_dir e fs t2 := by
  unfold FileExecutor.list_dir
  rw [h]

theorem write_json_params_congr {lib : JsonLib} {e : FileExecutor} {fs : FS} {t1 t2 : Task}
    (h : decodeWriteJsonParams t1.params = decodeWriteJsonParams t2.params) :
    FileExecutor.write_json lib e fs t1 = FileExecutor.write_json lib e fs t2 := by
  unfold FileExecutor.write_json
  rw [h]

theorem write_csv_params_congr {e : FileExecutor} {fs : FS} {t1 t2 : Task}
    (h : decodeWriteCsvParams t1.params = decodeWriteCsvParams t2.params) :
    FileExecutor.write_csv e fs t1 = FileExecutor.write_csv e fs t2 := by
  unfold FileExecutor.write_csv
  rw [h]

theorem create_dir_params_congr {e : FileExecutor} {fs : FS} {t1 t2 : Task}
    (h : decodePathParams t1.params = decodePathParams t2.params) :
    FileExecutor.create_dir e fs t1 = FileExecutor.create_dir e fs t2 := by
  unfold FileExecutor.create_dir
  rw [h]

theorem exists_params_congr {e : FileExecutor} {fs : FS} {t1 t2 : Task}
    (h : decodePathParams t1.params = decodePathParams t2.params) :
    FileExecutor.exists e fs t1 = FileExecutor.exists e fs t2 := by
  unfold FileExecutor.exists
  rw [h]

/-- C10: for every supported operation, execution depends on the params
object only through the operation's required fields: two params objects
agreeing on those fields — in particular one that merely adds extra,
unrelated fields — produce identical behavior, so extra fields are
tolerated and decoding can fail only over the required fields. -/
theorem execute_ignores_extra_fields (lib : JsonLib) (e : FileExecutor) (fs : FS) (task : Task)
    (kvs1 kvs2 : List (String × Json))
    (hop : classifyOp task.operation ≠ OpKind.opUnknown)
    (hkeys : ∀ key, key ∈ opRequiredKeys task.operation
       → jlookup key kvs1 = jlookup key kvs2) :
    FileExecutor.execute lib e fs { task with params := Json.obj kvs1 }
      = FileExecutor.execute lib e fs { task with params := Json.obj kvs2 } := by
  unfold FileExecutor.execute
  cases hv : e.validate { task with params := Json.obj kvs2 }
  case error err =>
    rw [show FileExecutor.validate e { task with params := Json.obj kvs1 }
          = Except.error err from hv]
  case ok u =>
    rw [show FileExecutor.validate e { task with params := Json.obj kvs1 }
          = Except.ok u from hv]
    cases hk : classifyOp task.operation
    case opUnknown => exact absurd hk hop
    case opRead =>
      exact read_file_params_congr
        (decodePathParams_congr (hkeys "path" (by simp [opRequiredKeys, hk])))
    case opReadCsv =>
      exact read_csv_params_congr
        (decodePathParams_congr (hkeys "path" (by simp [opRequiredKeys, hk])))
    case opReadJson =>
      exact read_json_params_congr
        (decodePathParams_congr (hkeys "path" (by simp [opRequiredKeys, hk])))
    case opWrite =>
      exact write_file_params_congr
        (decodeWriteParams_congr (hkeys "path" (by simp [opRequiredKeys, hk]))
          (hkeys "content" (by simp [opRequiredKeys, hk])))
    case opDelete =>
      exact delete_file_params_congr
        (decodePathParams_congr (hkeys "path" (by simp [opRequiredKeys, hk])))
    case opMove =>
      exact move_file_params_congr
        (decodeFromToParams_congr (hkeys "from" (by simp [opRequiredKeys, hk]))
          (hkeys "to" (by simp [opRequiredKeys, hk])))
    case opCopy =>
      exact copy_file_params_congr
        (decodeFromToParams_congr (hkeys "from" (by simp [opRequiredKeys, hk]))
          (hkeys "to" (by simp [opRequiredKeys, hk])))
    case opList =>
      exact list_dir_params_congr
        (decodePathParams_congr (hkeys "path" (by simp [opRequiredKeys, hk])))
    case opWriteJson =>
      exact write_json_params_congr
        (decodeWriteJsonParams_congr (hkeys "path" (by simp [opRequiredKeys, hk]))
          (hkeys "data" (by simp [opRequiredKeys, hk])))
    case opWriteCsv =>
      exact write_csv_params_congr
        (decodeWriteCsvParams_congr (hkeys "path" (by simp [opRequiredKeys, hk]))
          (hkeys "headers" (by simp [opRequiredKeys, hk]))
          (hkeys "rows" (by simp [opRequiredKeys, hk])))
    case opCreateDir =>
      exact create_dir_params_congr
        (decodePathParams_congr (hkeys "path" (by simp [opRequiredKeys, hk])))
    case opExists =>
      exact exists_params_congr
        (decodePathParams_congr (hkeys "path" (by simp [opRequiredKeys, hk])))

def c10base : Task := mkTask "read" Json.null

def c10kvs1 : List (String × Json) :=
  [("extra", Json.num 7), ("path", Json.str "a.txt")]

def c10kvs2 : List (String × Json) := [("path", Json.str "a.txt")]

theorem execute_ignores_extra_fields_witness :
    classifyOp c10base.operation ≠ OpKind.opUnknown
    ∧ (∀ key, key ∈ opRequiredKeys c10base.operation
         → jlookup key c10kvs1 = jlookup key c10kvs2)
    ∧ FileExecutor.execute dummyLib fe0 fs0 { c10base with params := Json.obj c10kvs1 }
        = FileExecutor.execute dummyLib fe0 fs0 { c10base with params := Json.obj c10kvs2 } :=
  ⟨by decide,
   fun key hkey => by
     have hk2 : key = "path" := List.mem_singleton.mp hkey
     subst hk2
     rfl,
   execute_ignores_extra_fields dummyLib fe0 fs0 c10base c10kvs1 c10kvs2 (by decide)
     (fun key hkey => by
       have hk2 : key = "path" := List.mem_singleton.mp hkey
       subst hk2
       rfl)⟩

def csvWriteTask : Task :=
  mkTask "write_csv" (Json.obj
    [ ("path", Json.str "data.csv")
    , ("headers", Json.arr [Json.str "name", Json.str "age"])
    , ("rows", Json.arr
        [ Json.arr [Json.str "Alice", Json.str "30"]
        , Json.arr [Json.str "Bob", Json.str "25"] ]) ])

def csvReadTask : Task := mkTask "read_csv" (Json.obj [("path", Json.str "data.csv")])

/-- The CSV document the writer builds for the round-trip instance. -/
def csvDoc : String :=
  csvRecordLine ["name", "age"]
    ++ String.join ([["Alice", "30"], ["Bob", "25"]].map csvRecordLine)

/-- C7: `write_csv` with headers `["name","age"]` and rows
`[["Alice","30"],["Bob","25"]]` followed by `read_csv` of the same path
returns exactly the fields `headers` and `rows`, holding the same headers
and rows in the same order. -/
theorem csv_roundtrip (lib : JsonLib) (e : FileExecutor) (fs : FS) :
    (FileExecutor.execute lib e
        (FileExecutor.execute lib e fs csvWriteTask).2 csvReadTask).1
      = Except.ok
          { success := true
          , output := some (Json.obj
              [ ("headers", Json.arr [Json.str "name", Json.str "age"])
              , ("rows", Json.arr
                  [ Json.arr [Json.str "Alice", Json.str "30"]
                  , Json.arr [Json.str "Bob", Json.str "25"] ]) ])
          , error := none } := by
  have hw : (FileExecutor.execute lib e fs csvWriteTask).2
      = fsWrite fs (pathJoin e.base_path "data.csv") csvDoc := rfl
  have hparse : csvParse csvDoc = [["name", "age"], ["Alice", "30"], ["Bob", "25"]] := by
    decide
  have hr : FileExecutor.execute lib e
        (fsWrite fs (pathJoin e.base_path "data.csv") csvDoc) csvReadTask
      = ( Except.ok
            { success := true
            , output := some (Json.obj
                [ ("headers", Json.arr [Json.str "name", Json.str "age"])
                , ("rows", Json.arr
                    [ Json.arr [Json.str "Alice", Json.str "30"]
                    , Json.arr [Json.str "Bob", Json.str "25"] ]) ])
            , error := none }
        , fsLog (fsWrite fs (pathJoin e.base_path "data.csv") csvDoc)
            ("read " ++ pathJoin e.base_path "data.csv") ) := by
    have h0 : FileExecutor.execute lib e
          (fsWrite fs (pathJoin e.base_path "data.csv") csvDoc) csvReadTask
        = FileExecutor.read_csv e
            (fsWrite fs (pathJoin e.base_path "data.csv") csvDoc) csvReadTask := rfl
    rw [h0]
    unfold FileExecutor.read_csv
    have hd : decodePathParams csvReadTask.params = some "data.csv" := rfl
    have hres : e.resolve_path "data.csv" = Except.ok (pathJoin e.base_path "data.csv") := rfl
    have hread : fsReadToString (fsWrite fs (pathJoin e.base_path "data.csv") csvDoc)
          (pathJoin e.base_path "data.csv")
        = ( Except.ok csvDoc
          , fsLog (fsWrite fs (pathJoin e.base_path "data.csv") csvDoc)
              ("read " ++ pathJoin e.base_path "data.csv") ) := by
      simp [fsReadToString, lookup_fsWrite]
    simp [hd, hres, hread, hparse]
  rw [hw, hr]

end WAS
